import Mathlib

/-!
Shallow embedding of the catalog synchronization engine of
`autocube-tilda-1c` (`src/main.py`, `src/config.py`).

The Python dict records produced by the OData join pipeline are embedded as
typed structures carrying exactly the fields the code reads (Cyrillic field
names are kept verbatim via escaped identifiers).  A Python runtime
exception — the only one reachable in the embedded fragment is `IndexError`
from indexing `[0]` into an empty list — is embedded with `Except PyErr`.
Modules of the repository that `src/main.py` imports but that are absent
from the snapshot (`src/entities.py`, `src/images.py`, `src/state.py`,
`src/odata_1c.py`) are modelled from the specification; each such
definition says so in its doc comment.
-/

/-- Runtime exception of the embedded Python code.  Indexing `[0]` into an
empty list raises `IndexError`. -/
inductive PyErr where
  | indexError
deriving DecidableEq, Repr

/-- Entry of `Catalog_ТипыЦен` fetched with
`select=["Ref_Key", "Description"]` (src/main.py lines 93-95). -/
structure PriceType where
  «Ref_Key» : String
  «Description» : String
deriving DecidableEq, Repr

/-- Entry of `InformationRegister_Цены_RecordType/SliceLast()` fetched with
`select=["Номенклатура_Key", "ТипЦен_Key", "Цена"]` (src/main.py lines
88-91), already expanded with the matching price types under key `ТипЦены`
(src/main.py lines 97-102): the joined list may be empty when no price type
matched.  `Цена` is a Python number read through `int(...)`. -/
structure PriceOption where
  «Номенклатура_Key» : String
  «ТипЦен_Key» : String
  «Цена» : Int
  «ТипЦены» : List PriceType
deriving DecidableEq, Repr

/-- Entry of `AccumulationRegister_ОстаткиТоваровКомпании/Balance()` fetched
with `select=["Номенклатура_Key", "КоличествоBalance"]` (src/main.py lines
83-86).  The balance is a Python number read through `int(...)`; an
accumulation-register balance may be negative. -/
structure StockEntry where
  «Номенклатура_Key» : String
  «КоличествоBalance» : Int
deriving DecidableEq, Repr

/-- Fully expanded entry of `Catalog_Номенклатура` (src/main.py lines 76-82)
after the two chained expansions of lines 104-114: the price list joined
under `Цены` and the stock list joined under `Остаток` (either may be
empty when nothing matched). -/
structure ProductRec where
  «Ref_Key» : String
  «Parent_Key» : String
  «IsFolder» : Bool
  «Description» : String
  «НаименованиеПолное» : String
  «Артикул» : String
  «Цены» : List PriceOption
  «Остаток» : List StockEntry
deriving DecidableEq, Repr

/-- Modelled from the spec: the `Folder` class lives in the missing module
`src/entities.py`; the spec's Category view is
`{id, name, parent_id, nesting_level (computed, >= 1)}` and `src/main.py`
reads exactly the fields `name` and `nesting_level`. -/
structure Folder where
  name : String
  nesting_level : Nat
deriving DecidableEq, Repr

/-- Modelled from the spec: the `Product` output record of the missing module
`src/entities.py`, with exactly the fields the constructor call in
`map_single_product` supplies (src/main.py lines 60-70). -/
structure Product where
  external_id : String
  title : String
  sku : String
  brand : String
  description : String
  price : Option Int
  categories : List String
deriving DecidableEq, Repr

/-- Embeds `get_product_brand` (src/main.py lines 19-23): return the name of
the first folder whose `nesting_level` equals 1, else the empty string. -/
def get_product_brand : List Folder → String
  | [] => ""
  | f :: rest => if f.nesting_level = 1 then f.name else get_product_brand rest

/-- The loop body of `get_product_price` (src/main.py lines 26-30) over the
joined price list.  `price_option["ТипЦены"][0]` raises `IndexError` when
the joined price-type list is empty; falling off the end of the loop
returns Python `None`. -/
def get_product_price_loop : List PriceOption → Except PyErr (Option Int)
  | [] => .ok none
  | po :: rest =>
    match po.«ТипЦены» with
    | [] => .error .indexError
    | pt :: _ =>
      if pt.«Description» = "Розничная цена" then .ok (some po.«Цена»)
      else get_product_price_loop rest

/-- Embeds `get_product_price` (src/main.py lines 26-30). -/
def get_product_price (product : ProductRec) : Except PyErr (Option Int) :=
  get_product_price_loop product.«Цены»

/-- Embeds `get_product_quantity` (src/main.py lines 32-35): the first stock
entry's balance when the joined stock list is truthy (non-empty), else 0. -/
def get_product_quantity (product : ProductRec) : Int :=
  match product.«Остаток» with
  | [] => 0
  | s :: _ => s.«КоличествоBalance»

/-- Embeds `title.replace(",", ", ")` (src/main.py line 58): Python
`str.replace` with the single-character pattern `","` replaces every comma
by a comma followed by a space. -/
def replace_commas (s : String) : String :=
  String.mk (s.data.foldr (fun c acc => if c = ',' then ',' :: ' ' :: acc else c :: acc) [])

/-- Embeds `map_single_product` (src/main.py lines 38-70).  A bare Python
`return` is `.ok none`; the `IndexError` that `get_product_price` may raise
while the `Product(...)` constructor call evaluates its arguments
propagates as `.error`. -/
def map_single_product (product : ProductRec) (folders : List Folder) :
    Except PyErr (Option Product) :=
  let sku := product.«Артикул»
  if sku = "" then .ok none
  else
    let folder_names := folders.map Folder.name
    let is_part : Bool := folder_names.contains "Запасные части"
    let is_foton : Bool := folder_names.contains "FOTON"
    let is_ashok : Bool := folder_names.contains "ASHOK"
    if !(is_part && (is_foton || is_ashok)) then .ok none
    else
      let quantity := get_product_quantity product
      let description := "В наличии"
      let description := if quantity = 0 then "На заказ" else description
      let title := replace_commas product.«НаименованиеПолное»
      let title := title ++ " [арт. " ++ sku ++ "]"
      match get_product_price product with
      | .error e => .error e
      | .ok price =>
        .ok (some
          { external_id := product.«Ref_Key»
            title := title
            sku := sku
            brand := get_product_brand folders
            description := description
            price := price
            categories :=
              ["Запчасти/Каталог", "Запчасти/" ++ get_product_brand folders] })

/-- Modelled from the spec: `OData1CMapper(...).map_products()` lives in the
missing module `src/odata_1c.py`; per the spec the Product Mapper stage
applies the mapping function to every expanded product record (paired here
with its resolved ancestor chain) and collects the emitted products in
source order, dropping records mapped to nothing.  A raised exception
propagates. -/
def map_products : List (ProductRec × List Folder) → Except PyErr (List Product)
  | [] => .ok []
  | (p, f) :: rest =>
    match map_single_product p f with
    | .error e => .error e
    | .ok none => map_products rest
    | .ok (some pr) =>
      match map_products rest with
      | .error e => .error e
      | .ok rs => .ok (pr :: rs)

/-- Embeds the tail of `get_products_from_1c` (src/main.py lines 116-129):
the mapped products are returned truncated to the configured maximum by the
slice `mapped_products[:settings.max_products_number]`. -/
def get_products_from_1c (records : List (ProductRec × List Folder))
    (max_products_number : Nat) : Except PyErr (List Product) :=
  match map_products records with
  | .error e => .error e
  | .ok mapped => .ok (mapped.take max_products_number)

/-- Modelled from the spec: the stem of a filename (the filename without its
final suffix, as `pathlib` computes it), used by the Image Matcher of the
missing module `src/images.py` to compare filenames against SKUs.  The
suffix starts at the last dot, provided that dot is not the first
character. -/
def stem (s : String) : String :=
  let cs := s.data
  match ((List.range cs.length).filter (fun i => cs.getD i ' ' = '.')).getLast? with
  | some i => if 0 < i then String.mk (cs.take i) else s
  | none => s

/-- Product paired with its matched image filename, as produced by the Image
Matcher stage. -/
structure ProductWithImage where
  product : Product
  image : String
deriving DecidableEq, Repr

/-- Modelled from the spec: `ImagesFolder(...).get_products_with_images()`
lives in the missing module `src/images.py`; per the spec, for each product
the image reference is the filename among the available filenames whose
stem satisfies the caller-supplied match rule (first one in listing order),
and the default filename when none matches; every product receives exactly
one image reference and none is rejected. -/
def get_products_with_images (products : List Product)
    (available_filenames : List String) (default_image : String)
    (matchRule : Product → String → Bool) : List ProductWithImage :=
  products.map (fun p =>
    { product := p
      image := (available_filenames.find? (fun fn => matchRule p (stem fn))).getD
        default_image })

/-- Modelled from the spec: `State.filter_not_presented` of the missing module
`src/state.py` is the Incremental State Differ's needs-processing side — it
keeps, in order, exactly the products whose stable key (`external_id`) is
not present in the previous snapshot. -/
def filter_not_presented (snapshot : List String)
    (products : List ProductWithImage) : List ProductWithImage :=
  products.filter (fun p => !(snapshot.contains p.product.external_id))

/-- Modelled from the spec: `State.dump` of the missing module `src/state.py`
rewrites the persisted snapshot in full from the keys of the products it is
given. -/
def state_dump (products : List ProductWithImage) : List String :=
  products.map (fun p => p.product.external_id)

/-- The observable data of one run of `main`: the Image Matcher output, the
differ's needs-processing subset (which `main` hands to the Dropbox
upload stage), and the snapshot persisted by `state.dump`. -/
structure RunResult where
  products_with_images : List ProductWithImage
  products_with_images_to_update : List ProductWithImage
  new_snapshot : List String
deriving DecidableEq, Repr

/-- Embeds the orchestration of `main` (src/main.py lines 156-185): the
Image Matcher runs over the full mapped product set with the lambda
`product.sku == image_name` from line 163; `state.filter_not_presented`
then selects the subset handed to the Dropbox upload stage; at the end
`state.dump(products_with_images)` persists the snapshot from the full
image-matched set. -/
def main_run (mapped_products : List Product) (prev_snapshot : List String)
    (available_filenames : List String) (default_image : String) : RunResult :=
  let products_with_images :=
    get_products_with_images mapped_products available_filenames default_image
      (fun product image_name => product.sku == image_name)
  let products_with_images_to_update :=
    filter_not_presented prev_snapshot products_with_images
  { products_with_images := products_with_images
    products_with_images_to_update := products_with_images_to_update
    new_snapshot := state_dump products_with_images }

/-- Spec-side restatement, for comparison with `get_product_brand`: the brand
is the name of the chain entry whose nesting_level equals 1, and the empty
string when no such entry exists. -/
def brand_spec (folders : List Folder) : String :=
  ((folders.find? (fun f => f.nesting_level == 1)).map Folder.name).getD ""

/-- Spec-side restatement, for comparison with `get_product_price`: the price
of the first entry of the joined price list whose (first) associated
price-type description equals the retail-price literal, absent when no
entry matches. -/
def price_spec (options : List PriceOption) : Option Int :=
  (options.find?
      (fun po => (po.«ТипЦены».head?.map PriceType.«Description») == some "Розничная цена")).map
    PriceOption.«Цена»

/-- Spec-side restatement of the Image Matcher rule instantiated with the
match predicate `main` supplies: the first available filename whose stem
equals the SKU, and the default filename when none matches. -/
def image_for (sku : String) (available_filenames : List String)
    (default_image : String) : String :=
  (available_filenames.find? (fun fn => stem fn == sku)).getD default_image

/-- Sample resolved ancestor chain satisfying the category membership rule:
it contains the spare-parts category and the FOTON brand folder at
nesting level 1. -/
def okFolders : List Folder := [⟨"Запасные части", 2⟩, ⟨"FOTON", 1⟩]

/-- Sample ancestor chain from the spec's rejection example: no spare-parts
category and no recognized brand. -/
def electronicsFolders : List Folder := [⟨"Electronics", 1⟩]

/-- Sample accepted record: non-empty SKU, one retail price entry whose
joined price-type list is non-empty, empty joined stock list. -/
def goodRec : ProductRec :=
  { «Ref_Key» := "R1", «Parent_Key» := "P", «IsFolder» := false
    «Description» := "d", «НаименованиеПолное» := "Болт,железный"
    «Артикул» := "P100"
    «Цены» := [⟨"R1", "T1", 500, [⟨"T1", "Розничная цена"⟩]⟩]
    «Остаток» := [] }

/-- The sample record with the SKU of the spec's chain-rejection example. -/
def x1Rec : ProductRec := { goodRec with «Артикул» := "X1" }

/-- The sample record with an empty SKU. -/
def emptySkuRec : ProductRec := { goodRec with «Артикул» := "" }

/-- The sample record whose single joined price entry carries an empty joined
price-type list. -/
def badPriceRec : ProductRec := { goodRec with «Цены» := [⟨"R1", "T1", 500, []⟩] }

/-- The sample record with a negative stock balance. -/
def negStockRec : ProductRec := { goodRec with «Остаток» := [⟨"R1", -1⟩] }

/-- The product `map_single_product` emits for `goodRec` with `okFolders`. -/
def goodProduct : Product :=
  { external_id := "R1", title := "Болт, железный [арт. P100]", sku := "P100"
    brand := "FOTON", description := "На заказ", price := some 500
    categories := ["Запчасти/Каталог", "Запчасти/FOTON"] }

/-- Sample mapped product with key "A" and no matching image filename. -/
def pA : Product :=
  { external_id := "A", title := "t", sku := "SKU2", brand := "FOTON"
    description := "В наличии", price := some 1, categories := ["c"] }

/-- The boolean category-membership condition of `map_single_product`
(src/main.py lines 44-51). -/
def category_cond (folders : List Folder) : Bool :=
  (folders.map Folder.name).contains "Запасные части" &&
    ((folders.map Folder.name).contains "FOTON" ||
      (folders.map Folder.name).contains "ASHOK")

lemma contains_iff_mem (l : List String) (a : String) : l.contains a = true ↔ a ∈ l :=
  List.elem_iff

lemma category_cond_iff (folders : List Folder) :
    category_cond folders = true ↔
      ("Запасные части" ∈ folders.map Folder.name ∧
        ("FOTON" ∈ folders.map Folder.name ∨ "ASHOK" ∈ folders.map Folder.name)) := by
  simp only [category_cond, Bool.and_eq_true, Bool.or_eq_true, contains_iff_mem]

lemma msp_empty_sku (product : ProductRec) (folders : List Folder)
    (h : product.«Артикул» = "") : map_single_product product folders = .ok none := by
  unfold map_single_product
  simp only [if_pos h]

lemma msp_reject (product : ProductRec) (folders : List Folder)
    (h2 : category_cond folders = false) :
    map_single_product product folders = .ok none := by
  unfold map_single_product
  simp only [category_cond] at h2
  by_cases h1 : product.«Артикул» = ""
  · simp only [if_pos h1]
  · simp only [if_neg h1, h2, Bool.not_false, if_true]

lemma msp_accept (product : ProductRec) (folders : List Folder)
    (h1 : ¬ product.«Артикул» = "") (h2 : category_cond folders = true) :
    map_single_product product folders =
      Except.map (fun price => some
        { external_id := product.«Ref_Key»
          title := replace_commas product.«НаименованиеПолное» ++ " [арт. " ++
            product.«Артикул» ++ "]"
          sku := product.«Артикул»
          brand := get_product_brand folders
          description :=
            if get_product_quantity product = 0 then "На заказ" else "В наличии"
          price := price
          categories := ["Запчасти/Каталог", "Запчасти/" ++ get_product_brand folders] })
        (get_product_price product) := by
  unfold map_single_product
  simp only [category_cond] at h2
  simp only [if_neg h1, h2, Bool.not_true, Bool.false_eq_true, if_false]
  cases hpe : get_product_price product <;> simp [Except.map]

lemma price_loop_first_match : ∀ options : List PriceOption,
    (∀ po ∈ options, po.«ТипЦены» ≠ []) →
    get_product_price_loop options = .ok (price_spec options) := by
  intro options h
  induction options with
  | nil => rfl
  | cons po rest ih =>
    have hne : po.«ТипЦены» ≠ [] := h po (List.mem_cons_self po rest)
    match hre : po.«ТипЦены» with
    | [] => exact absurd hre hne
    | pt :: more =>
      by_cases hd : pt.«Description» = "Розничная цена"
      · simp [get_product_price_loop, price_spec, List.find?_cons, hre, hd]
      · have hb : ((po.«ТипЦены».head?.map PriceType.«Description») ==
            some "Розничная цена") = false := by
          simp [hre, hd]
        simp only [get_product_price_loop, hre, if_neg hd]
        rw [ih (fun q hq => h q (List.mem_cons_of_mem po hq))]
        simp [price_spec, List.find?_cons, hb]

lemma find?_congr_fun {α : Type} (p q : α → Bool) (h : ∀ a, p a = q a) :
    ∀ l : List α, l.find? p = l.find? q := by
  intro l
  induction l with
  | nil => rfl
  | cons a rest ih => simp [List.find?_cons, h a, ih]

/-- Claim C1: `map_single_product` emits a `Product` only if the SKU is
non-empty and the ancestor chain's folder names include the category
literally named "Запасные части" together with at least one recognized
brand name ("FOTON" or "ASHOK"); for every record whose chain lacks either
condition it returns nothing. -/
theorem map_single_product_category_rule :
    ∀ (product : ProductRec) (folders : List Folder),
    (∀ pr : Product, map_single_product product folders = .ok (some pr) →
        product.«Артикул» ≠ "" ∧
        "Запасные части" ∈ folders.map Folder.name ∧
        ("FOTON" ∈ folders.map Folder.name ∨ "ASHOK" ∈ folders.map Folder.name)) ∧
    (¬("Запасные части" ∈ folders.map Folder.name ∧
        ("FOTON" ∈ folders.map Folder.name ∨ "ASHOK" ∈ folders.map Folder.name)) →
      map_single_product product folders = .ok none) := by
  intro product folders
  constructor
  · intro pr hok
    cases hcv : category_cond folders with
    | false => rw [msp_reject product folders hcv] at hok; simp at hok
    | true =>
      refine ⟨?_, ((category_cond_iff folders).mp hcv).1,
        ((category_cond_iff folders).mp hcv).2⟩
      intro hsku
      rw [msp_empty_sku product folders hsku] at hok
      simp at hok
  · intro hcond
    have hcv : category_cond folders = false := by
      cases hcv : category_cond folders with
      | false => rfl
      | true => exact absurd ((category_cond_iff folders).mp hcv) hcond
    exact msp_reject product folders hcv

/-- Witness for C1 at the spec's rejection example: the chain
`["Electronics"]` lacks both conditions and the record is mapped to
nothing. -/
theorem map_single_product_category_rule_witness :
    ¬("Запасные части" ∈ (electronicsFolders).map Folder.name ∧
        ("FOTON" ∈ (electronicsFolders).map Folder.name ∨
          "ASHOK" ∈ (electronicsFolders).map Folder.name)) ∧
    map_single_product x1Rec electronicsFolders = .ok none :=
  ⟨by decide,
   (map_single_product_category_rule x1Rec electronicsFolders).2 (by decide)⟩

/-- Counterexample to claim C2: on a record that passes the filter and whose
joined price entry carries an empty joined price-type list,
`map_single_product` raises `IndexError` (from
`price_option["ТипЦены"][0]`) instead of returning a `Product` or
nothing. -/
theorem map_single_product_raises_on_empty_price_type :
    map_single_product badPriceRec okFolders = .error .indexError := rfl

/-- Claim C2 as amended: `map_single_product` is pure and total over the
records in which every joined price entry carries a non-empty joined
price-type list — including a record whose joined price list is empty or
whose joined stock list is empty — returning a well-formed `Product` or
nothing and never raising. -/
theorem map_single_product_total :
    ∀ (product : ProductRec) (folders : List Folder),
    (∀ po ∈ product.«Цены», po.«ТипЦены» ≠ []) →
    ∃ r : Option Product, map_single_product product folders = .ok r := by
  intro product folders h
  have hp : get_product_price product = .ok (price_spec product.«Цены») :=
    price_loop_first_match product.«Цены» h
  by_cases h1 : product.«Артикул» = ""
  · exact ⟨none, msp_empty_sku product folders h1⟩
  · cases hcv : category_cond folders with
    | false => exact ⟨none, msp_reject product folders hcv⟩
    | true =>
      rw [msp_accept product folders h1 hcv, hp]
      exact ⟨_, rfl⟩

/-- Witness for amended C2 at a concrete accepted record with an empty
joined stock list. -/
theorem map_single_product_total_witness :
    ∃ r : Option Product, map_single_product goodRec okFolders = .ok r :=
  map_single_product_total goodRec okFolders (by decide)

/-- Counterexample to claim C3: on a record none of whose price entries has a
matching associated price-type description, the price is not absent — the
code raises `IndexError` on the entry whose joined price-type list is
empty. -/
theorem get_product_price_error_not_none :
    price_spec badPriceRec.«Цены» = none ∧
    get_product_price badPriceRec = .error .indexError := ⟨rfl, rfl⟩

/-- Claim C3 as amended: for every product record whose joined price entries
each carry a non-empty price-type list, the emitted price is the value of
the first entry, in the joined price list's source order, whose first
associated price-type description equals "Розничная цена"; if no entry
matches the price is absent (`none`), not zero and not an error, and
multiple matches resolve to the first in source order. -/
theorem get_product_price_first_match :
    ∀ product : ProductRec,
    (∀ po ∈ product.«Цены», po.«ТипЦены» ≠ []) →
    get_product_price product = .ok (price_spec product.«Цены») := by
  intro product h
  exact price_loop_first_match product.«Цены» h

/-- Witness for amended C3 at a concrete record with one matching retail
price entry. -/
theorem get_product_price_first_match_witness :
    get_product_price goodRec = .ok (price_spec goodRec.«Цены») :=
  get_product_price_first_match goodRec (by decide)

/-- Counterexample to claim C4: a record with a negative stock balance is
emitted with the in-stock description although its quantity is not
positive. -/
theorem negative_quantity_description :
    (map_single_product negStockRec okFolders).map (Option.map Product.description)
      = .ok (some "В наличии") ∧
    get_product_quantity negStockRec = -1 ∧
    ¬(0 < get_product_quantity negStockRec) := ⟨rfl, rfl, by decide⟩

/-- Claim C4 as amended: for every emitted product, the quantity is 0 when
the joined stock list is empty and the first stock entry's balance
otherwise, and the description is the on-order literal exactly when the
quantity equals 0 and the in-stock literal exactly when it differs from 0
(hence also for negative quantities); only those two values occur. -/
theorem map_single_product_description_rule :
    ∀ (product : ProductRec) (folders : List Folder) (pr : Product),
    map_single_product product folders = .ok (some pr) →
    ((pr.description = "На заказ" ↔ get_product_quantity product = 0) ∧
      (pr.description = "В наличии" ↔ get_product_quantity product ≠ 0) ∧
      (product.«Остаток» = [] → get_product_quantity product = 0) ∧
      (∀ s rest, product.«Остаток» = s :: rest →
        get_product_quantity product = s.«КоличествоBalance»)) := by
  intro product folders pr hok
  have hq3 : product.«Остаток» = [] → get_product_quantity product = 0 := by
    intro he; simp [get_product_quantity, he]
  have hq4 : ∀ s rest, product.«Остаток» = s :: rest →
      get_product_quantity product = s.«КоличествоBalance» := by
    intro s rest he; simp [get_product_quantity, he]
  have hdesc : pr.description =
      if get_product_quantity product = 0 then "На заказ" else "В наличии" := by
    by_cases h1 : product.«Артикул» = ""
    · rw [msp_empty_sku product folders h1] at hok; simp at hok
    · cases hcv : category_cond folders with
      | false => rw [msp_reject product folders hcv] at hok; simp at hok
      | true =>
        rw [msp_accept product folders h1 hcv] at hok
        cases hpe : get_product_price product with
        | error e => rw [hpe] at hok; simp [Except.map] at hok
        | ok price =>
          rw [hpe] at hok
          simp only [Except.map, Except.ok.injEq, Option.some.injEq] at hok
          rw [← hok]
  refine ⟨?_, ?_, hq3, hq4⟩ <;> rw [hdesc] <;>
    by_cases hz : get_product_quantity product = 0 <;> simp [hz]

/-- Witness for amended C4 at the concrete accepted record with empty stock:
quantity is 0 and the description is the on-order literal. -/
theorem map_single_product_description_rule_witness :
    (goodProduct.description = "На заказ" ↔ get_product_quantity goodRec = 0) ∧
    (goodProduct.description = "В наличии" ↔ get_product_quantity goodRec ≠ 0) ∧
    (goodRec.«Остаток» = [] → get_product_quantity goodRec = 0) ∧
    (∀ s rest, goodRec.«Остаток» = s :: rest →
      get_product_quantity goodRec = s.«КоличествоBalance») :=
  map_single_product_description_rule goodRec okFolders goodProduct rfl

/-- Claim C5: every record whose SKU field is empty is silently mapped to
nothing, regardless of every other field and of the ancestor chain. -/
theorem map_single_product_empty_sku_rejected :
    ∀ (product : ProductRec) (folders : List Folder),
    product.«Артикул» = "" → map_single_product product folders = .ok none := by
  intro product folders h
  exact msp_empty_sku product folders h

/-- Witness for C5 at a record with empty SKU and valid category
membership. -/
theorem map_single_product_empty_sku_rejected_witness :
    map_single_product emptySkuRec okFolders = .ok none :=
  map_single_product_empty_sku_rejected emptySkuRec okFolders rfl

/-- Claim C6: the product brand is the name of the first chain entry whose
nesting_level equals 1, and the empty string (with no error) when no such
entry exists — `get_product_brand` equals the find-first-based spec
reading. -/
theorem get_product_brand_eq_spec : ∀ folders : List Folder,
    get_product_brand folders = brand_spec folders := by
  intro folders
  induction folders with
  | nil => rfl
  | cons f rest ih =>
    by_cases h : f.nesting_level = 1
    · simp [get_product_brand, brand_spec, List.find?_cons, h]
    · have hb : (f.nesting_level == 1) = false := by simp [h]
      simp only [get_product_brand, if_neg h, ih, brand_spec, List.find?_cons, hb]

/-- Claim C7: at the end of every run the persisted snapshot is rewritten in
full from the keys of the entire image-matched product set — equal to the
keys of all mapped products — and a product skipped this run because its
key was already in the previous snapshot is excluded from the
needs-processing subset yet included in the new snapshot. -/
theorem main_run_snapshot_full :
    ∀ (mapped_products : List Product) (prev_snapshot : List String)
      (available_filenames : List String) (default_image : String),
    (main_run mapped_products prev_snapshot available_filenames
        default_image).new_snapshot = mapped_products.map Product.external_id ∧
    ∀ p ∈ mapped_products, p.external_id ∈ prev_snapshot →
      (p.external_id ∈ (main_run mapped_products prev_snapshot available_filenames
          default_image).new_snapshot ∧
       ∀ q ∈ (main_run mapped_products prev_snapshot available_filenames
          default_image).products_with_images_to_update,
         q.product.external_id ≠ p.external_id) := by
  intro mapped prev avail d
  have hsnap : (main_run mapped prev avail d).new_snapshot
      = mapped.map Product.external_id := by
    simp [main_run, state_dump, get_products_with_images, List.map_map, Function.comp]
  refine ⟨hsnap, ?_⟩
  intro p hp hprev
  constructor
  · rw [hsnap]
    exact List.mem_map_of_mem Product.external_id hp
  · intro q hq heq
    simp only [main_run, filter_not_presented] at hq
    have hqc := (List.mem_filter.mp hq).2
    rw [heq] at hqc
    have hfalse : prev.contains p.external_id = false := by
      cases hcc : prev.contains p.external_id with
      | false => rfl
      | true => rw [hcc] at hqc; simp at hqc
    have htrue : prev.contains p.external_id = true :=
      (contains_iff_mem prev p.external_id).mpr hprev
    rw [hfalse] at htrue
    exact Bool.false_ne_true htrue

/-- Witness for C7 at a run whose single product is already in the previous
snapshot: it is skipped by the differ yet its key is persisted again. -/
theorem main_run_snapshot_full_witness :
    pA.external_id ∈ (main_run [pA] ["A"] [] "default.jpg").new_snapshot ∧
    ∀ q ∈ (main_run [pA] ["A"] [] "default.jpg").products_with_images_to_update,
      q.product.external_id ≠ pA.external_id :=
  (main_run_snapshot_full [pA] ["A"] [] "default.jpg").2 pA (by decide) (by decide)

/-- Counterexample to claim C8: in a run whose single product is already in
the previous snapshot, the differ's needs-processing subset is empty and
yet the Image Matcher's output carries that product with an attached image
reference — so the matcher did not consume the differ's output; the code
runs the matcher over the full set before the differ. -/
theorem main_run_matcher_before_differ_cex :
    (main_run [pA] ["A"] [] "default.jpg").products_with_images_to_update = [] ∧
    (main_run [pA] ["A"] [] "default.jpg").products_with_images
      = [{ product := pA, image := "default.jpg" }] := ⟨rfl, rfl⟩

/-- Claim C8 as amended: in every run the Image Matcher attaches image
references to the entire mapped product set first, and the Incremental
State Differ then partitions the image-matched set against the previous
snapshot; the needs-processing subset (which feeds the cloud upload stage)
is a membership filter of the matcher's output — matcher precedes
differ. -/
theorem main_run_matcher_then_differ :
    ∀ (mapped_products : List Product) (prev_snapshot : List String)
      (available_filenames : List String) (default_image : String),
    ((main_run mapped_products prev_snapshot available_filenames
        default_image).products_with_images).map ProductWithImage.product
      = mapped_products ∧
    (main_run mapped_products prev_snapshot available_filenames
        default_image).products_with_images_to_update
      = ((main_run mapped_products prev_snapshot available_filenames
          default_image).products_with_images).filter
          (fun q => !(prev_snapshot.contains q.product.external_id)) := by
  intro mapped prev avail d
  constructor
  · simp only [main_run, get_products_with_images, List.map_map]
    exact (List.map_congr_left fun a _ => rfl).trans (List.map_id _)
  · rfl

/-- Claim C9: with the match predicate `main` supplies, every product
receives exactly one image reference — the first available filename whose
stem equals the product's SKU, and the default filename when none matches —
and no product is rejected at this stage. -/
theorem image_matcher_spec :
    ∀ (products : List Product) (available_filenames : List String)
      (default_image : String),
    (get_products_with_images products available_filenames default_image
        (fun product image_name => product.sku == image_name)).map
        ProductWithImage.product = products ∧
    (get_products_with_images products available_filenames default_image
        (fun product image_name => product.sku == image_name)).map
        ProductWithImage.image
      = products.map (fun p => image_for p.sku available_filenames default_image) := by
  intro products avail d
  constructor
  · simp only [get_products_with_images, List.map_map]
    exact (List.map_congr_left fun a _ => rfl).trans (List.map_id _)
  · simp only [get_products_with_images, List.map_map]
    refine List.map_congr_left ?_
    intro p _
    simp only [Function.comp, image_for]
    rw [find?_congr_fun (fun fn => p.sku == stem fn) (fun fn => stem fn == p.sku)
      (fun fn => ?_) avail]
    rw [Bool.eq_iff_iff]
    simp only [beq_iff_eq]
    exact eq_comm

/-- Claim C10: the sequence `get_products_from_1c` returns holds at most
`max_products_number` products — the mapped products silently truncated to
the first `max_products_number` of them in source order. -/
theorem get_products_from_1c_truncates :
    ∀ (records : List (ProductRec × List Folder)) (max_products_number : Nat)
      (mapped : List Product),
    map_products records = .ok mapped →
    get_products_from_1c records max_products_number
        = .ok (mapped.take max_products_number) ∧
    (mapped.take max_products_number).length ≤ max_products_number := by
  intro records n mapped h
  constructor
  · unfold get_products_from_1c
    rw [h]
  · rw [List.length_take]
    exact min_le_left _ _

/-- Witness for C10: two mapped products with the limit set to 1 are
truncated to the first one. -/
theorem get_products_from_1c_truncates_witness :
    get_products_from_1c [(goodRec, okFolders), (goodRec, okFolders)] 1
        = .ok ([goodProduct, goodProduct].take 1) ∧
    ([goodProduct, goodProduct].take 1).length ≤ 1 :=
  get_products_from_1c_truncates [(goodRec, okFolders), (goodRec, okFolders)] 1
    [goodProduct, goodProduct] rfl
